import Mathlib

/-!
Verification of the belt-balancing repository (pyomo_model_1.py and
sympy_system.py) against its specification.

Modelling conventions:
* Set members such as "i3", "s2", "c1" are created in the source by
  `init_set(letter, size)` / f-strings as `f"{letter}{x+1}"`; we represent
  such a member as the pair `(letter, x+1) : Char × Nat`.  The source's
  `get_letter` (strip trailing digits) and `get_int` (strip leading letters)
  are then exactly the two projections.
* Python / sympy numeric values are modelled as exact rationals `ℚ`.
* Pyomo `Set` objects are modelled as Lean `List`s in construction order;
  `Param`, `Var` families become functions out of `Char × Nat`.
-/

/-- A member of one of the index sets, e.g. `"s2"` is `('s', 2)`. -/
abbrev Member := Char × Nat

/-- `init_set(letter, size)` from the source: the list
`[letter1, letter2, ..., lettersize]`. -/
def init_set (letter : Char) (size : Nat) : List Member :=
  (List.range size).map (fun x => (letter, x + 1))

/-- `get_letter(member)`: the letter part of a member name. -/
def get_letter (member : Member) : Char := member.1

/-- `get_int(member)`: the numeric part of a member name. -/
def get_int (member : Member) : Nat := member.2

/-- Cartesian product of two lists, in enumeration order. -/
def setProd (l₁ : List Member) (l₂ : List Member) : List (Member × Member) :=
  l₁.flatMap (fun a => l₂.map (fun b => (a, b)))

theorem mem_setProd {l₁ l₂ : List Member} {pq : Member × Member} :
    pq ∈ setProd l₁ l₂ ↔ pq.1 ∈ l₁ ∧ pq.2 ∈ l₂ := by
  cases pq with
  | mk a b => simp [setProd]

/-- Sum of a rational-valued function over a list of indices, as used for
the pyomo `sum(... for ... in ...)` generator expressions. -/
def sumOver (l : List Member) (f : Member → ℚ) : ℚ :=
  (l.map f).sum

/-- Sum over a list of routes. -/
def sumOverB (l : List (Member × Member)) (f : Member × Member → ℚ) : ℚ :=
  (l.map f).sum

namespace PyomoModel

/-! ### Derived traffic values (pyomo_model_1.py, lines 17-23),
parameterised by the configuration counts `inbounds`, `outbounds`. -/

/-- `cargos = inbounds`. -/
def cargos (inbounds : Nat) : Nat := inbounds

/-- `throughput = min(inbounds, outbounds)`. -/
def throughput (inbounds outbounds : Nat) : Nat := min inbounds outbounds

/-- `v_in = throughput / inbounds`. -/
def v_in (inbounds outbounds : Nat) : ℚ :=
  (throughput inbounds outbounds : ℚ) / (inbounds : ℚ)

/-- `v_out = throughput / outbounds`. -/
def v_out (inbounds outbounds : Nat) : ℚ :=
  (throughput inbounds outbounds : ℚ) / (outbounds : ℚ)

/-- `t_in = v_in / 1`. -/
def t_in (inbounds outbounds : Nat) : ℚ := v_in inbounds outbounds / 1

/-- `t_out = v_out / cargos`. -/
def t_out (inbounds outbounds : Nat) : ℚ :=
  v_out inbounds outbounds / (cargos inbounds : ℚ)

/-! ### Basic and composite sets (pyomo_model_1.py, lines 38-102). -/

/-- `model.I`: inbound belts. -/
def I (inbounds : Nat) : List Member := init_set 'i' inbounds

/-- `model.J`: outbound belts. -/
def J (outbounds : Nat) : List Member := init_set 'j' outbounds

/-- `model.S`: splitters. -/
def S (splitters : Nat) : List Member := init_set 's' splitters

/-- `model.C`: cargo types, one per inbound belt. -/
def C (inbounds : Nat) : List Member := init_set 'c' (cargos inbounds)

/-- `model.P = model.I | model.S`: producing ends. -/
def P (inbounds splitters : Nat) : List Member := I inbounds ++ S splitters

/-- `model.Q = model.S | model.J`: consuming ends. -/
def Q (outbounds splitters : Nat) : List Member := S splitters ++ J outbounds

/-- `B_filter`: drop belts that bypass the splitters entirely and belts that
loop a splitter back on itself (pyomo_model_1.py, lines 66-71). -/
def B_filter (p q : Member) : Bool :=
  if get_letter p = 'i' ∧ get_letter q = 'j' then
    false  -- Don't allow belts that bypass the splitters entirely
  else if get_letter p = 's' ∧ get_letter q = 's' ∧ get_int p = get_int q then
    false  -- Don't allow a splitter to loop right back on itself
  else
    true

/-- `model.B`: available belt routes, the filtered product `P × Q`. -/
def B (inbounds outbounds splitters : Nat) : List (Member × Member) :=
  (setProd (P inbounds splitters) (Q outbounds splitters)).filter
    (fun pq => B_filter pq.1 pq.2)

/-- `model.W = (model.S * model.Q) & model.B`: belts that start at the output
of a splitter. -/
def W (inbounds outbounds splitters : Nat) : List (Member × Member) :=
  (setProd (S splitters) (Q outbounds splitters)).filter
    (fun pq => pq ∈ B inbounds outbounds splitters)

/-! ### Parameters (pyomo_model_1.py, lines 105-131). -/

/-- `f_init` / `model.f`: homogeneous cargo traffic for each inbound belt. -/
def f (inbounds outbounds : Nat) (i c : Member) : ℚ :=
  if get_int i = get_int c then t_in inbounds outbounds else 0

/-- `model.g`: perfectly mixed cargo traffic for each outbound belt
(a `Param` with constant default `t_out`). -/
def g (inbounds outbounds : Nat) (_j _c : Member) : ℚ :=
  t_out inbounds outbounds

/-- `model.u_t`: upper bound on the traffic along any belt (default 1). -/
def u_t : ℚ := 1

/-- `model.u_x`: upper bound on the traffic into any splitter (default 2). -/
def u_x : ℚ := 2

/-! ### Linearization constraint rules (pyomo_model_1.py, lines 233-278
and 369-375), as scalar predicates on the participating values. -/

/-- `force_xe_1_rule`: `xe[s,q,c] <= u_x * e[s,q]`. -/
def force_xe_1_rule (uX e xe : ℚ) : Prop := xe ≤ uX * e

/-- `force_xe_2_rule`: `xe[s,q,c] <= x[s,c]`. -/
def force_xe_2_rule (x xe : ℚ) : Prop := xe ≤ x

/-- `force_xe_3_rule`: `xe[s,q,c] >= x[s,c] - u_x * (1 - e[s,q])`. -/
def force_xe_3_rule (uX e x xe : ℚ) : Prop := xe ≥ x - uX * (1 - e)

/-- `force_tz_1_rule`: `tz[s,q,c] <= u_t * z[s]`. -/
def force_tz_1_rule (uT z tz : ℚ) : Prop := tz ≤ uT * z

/-- `force_tz_2_rule`: `tz[s,q,c] <= t[s,q,c]`. -/
def force_tz_2_rule (t tz : ℚ) : Prop := tz ≤ t

/-- `force_tz_3_rule`: `tz[s,q,c] >= t[s,q,c] - u_t * (1 - z[s])`. -/
def force_tz_3_rule (uT z t tz : ℚ) : Prop := tz ≥ t - uT * (1 - z)

/-- `split_evenly_rule`: `xe[s,q,c] == t[s,q,c] + tz[s,q,c]`. -/
def split_evenly_rule (t xe tz : ℚ) : Prop := xe = t + tz

/-- The seven linearization constraints for one `(s,q,c)` triple, together
with nonnegativity of the auxiliary variables, at the default bounds
`u_x = 2`, `u_t = 1`. -/
def linearizationSat (e z t x xe tz : ℚ) : Prop :=
  0 ≤ xe ∧ 0 ≤ tz ∧
  force_xe_1_rule u_x e xe ∧ force_xe_2_rule x xe ∧ force_xe_3_rule u_x e x xe ∧
  force_tz_1_rule u_t z tz ∧ force_tz_2_rule t tz ∧ force_tz_3_rule u_t z t tz ∧
  split_evenly_rule t xe tz

/-- Unfolded form of `linearizationSat` used by the proofs below. -/
theorem linearizationSat_iff (e z t x xe tz : ℚ) :
    linearizationSat e z t x xe tz ↔
      0 ≤ xe ∧ 0 ≤ tz ∧ xe ≤ 2 * e ∧ xe ≤ x ∧ x - 2 * (1 - e) ≤ xe ∧
      tz ≤ 1 * z ∧ tz ≤ t ∧ t - 1 * (1 - z) ≤ tz ∧ xe = t + tz := by
  simp only [linearizationSat, force_xe_1_rule, force_xe_2_rule, force_xe_3_rule,
    force_tz_1_rule, force_tz_2_rule, force_tz_3_rule, split_evenly_rule,
    u_t, u_x, ge_iff_le]

end PyomoModel

/-- C1: For binary `e`, `z`, with `0 ≤ t ≤ 1` and `0 ≤ x ≤ 2`, the seven
emitted linear constraints (three `xe` inequalities, three `tz`
inequalities, and the linking equation) are satisfiable for some
nonnegative `xe`, `tz` if and only if `t = e * x / (1 + z)` exactly; in
particular `e = 0` forces `t = 0`, `e = 1, z = 0` forces `t = x`, and
`e = 1, z = 1` forces `t = x / 2`. -/
theorem even_split_linearization_exact (e z t x : ℚ)
    (he : e = 0 ∨ e = 1) (hz : z = 0 ∨ z = 1)
    (ht0 : 0 ≤ t) (ht1 : t ≤ 1) (hx0 : 0 ≤ x) (hx1 : x ≤ 2) :
    ((∃ xe tz, PyomoModel.linearizationSat e z t x xe tz) ↔
        t = e * x / (1 + z)) ∧
    (e = 0 → ((∃ xe tz, PyomoModel.linearizationSat e z t x xe tz) ↔ t = 0)) ∧
    (e = 1 → z = 0 → ((∃ xe tz, PyomoModel.linearizationSat e z t x xe tz) ↔ t = x)) ∧
    (e = 1 → z = 1 → ((∃ xe tz, PyomoModel.linearizationSat e z t x xe tz) ↔ t = x / 2)) := by
  have main : (∃ xe tz, PyomoModel.linearizationSat e z t x xe tz) ↔
      t = e * x / (1 + z) := by
    constructor
    · rintro ⟨xe, tz, hsat⟩
      rw [PyomoModel.linearizationSat_iff] at hsat
      obtain ⟨hxe0, htz0, h1, h2, h3, h4, h5, h6, h7⟩ := hsat
      rcases he with he | he <;> rcases hz with hz | hz <;> subst he <;> subst hz <;>
        norm_num <;> linarith
    · intro ht
      rcases he with he | he <;> rcases hz with hz | hz <;> subst he <;> subst hz <;>
        norm_num at ht
      · exact ⟨0, 0, (PyomoModel.linearizationSat_iff 0 0 t x 0 0).mpr
          ⟨by linarith, by linarith, by linarith, by linarith, by linarith,
            by linarith, by linarith, by linarith, by linarith⟩⟩
      · exact ⟨0, 0, (PyomoModel.linearizationSat_iff 0 1 t x 0 0).mpr
          ⟨by linarith, by linarith, by linarith, by linarith, by linarith,
            by linarith, by linarith, by linarith, by linarith⟩⟩
      · exact ⟨x, 0, (PyomoModel.linearizationSat_iff 1 0 t x x 0).mpr
          ⟨by linarith, by linarith, by linarith, by linarith, by linarith,
            by linarith, by linarith, by linarith, by linarith⟩⟩
      · exact ⟨x, t, (PyomoModel.linearizationSat_iff 1 1 t x x t).mpr
          ⟨by linarith, by linarith, by linarith, by linarith, by linarith,
            by linarith, by linarith, by linarith, by linarith⟩⟩
  refine ⟨main, ?_, ?_, ?_⟩
  · intro he0
    rw [main, he0]
    norm_num
  · intro he1 hz0
    rw [main, he1, hz0]
    norm_num
  · intro he1 hz1
    rw [main, he1, hz1]
    constructor <;> intro h <;> rw [h] <;> ring

/-- Witness for C1 at `e = 1`, `z = 1`, `t = 1`, `x = 2`. -/
theorem even_split_linearization_exact_witness :
    (∃ xe tz, PyomoModel.linearizationSat 1 1 1 2 xe tz) ↔ (1 : ℚ) = 1 * 2 / (1 + 1) :=
  (even_split_linearization_exact 1 1 1 2 (Or.inr rfl) (Or.inr rfl)
    (by norm_num) (by norm_num) (by norm_num) (by norm_num)).1

namespace SympySystem

/-! ### sympy_system.py: sets and parameters, parameterised by the three
configuration counts (the file itself fixes them to 1, 3, 3). -/

/-- `cargos = inbounds`. -/
def cargos (inbounds : Nat) : Nat := inbounds

/-- `throughput = min(inbounds, outbounds)`. -/
def throughput (inbounds outbounds : Nat) : Nat := min inbounds outbounds

/-- `v_in = throughput / inbounds` (exact sympy rational). -/
def v_in (inbounds outbounds : Nat) : ℚ :=
  (throughput inbounds outbounds : ℚ) / (inbounds : ℚ)

/-- `v_out = throughput / outbounds`. -/
def v_out (inbounds outbounds : Nat) : ℚ :=
  (throughput inbounds outbounds : ℚ) / (outbounds : ℚ)

/-- `t_in = v_in / 1`. -/
def t_in (inbounds outbounds : Nat) : ℚ := v_in inbounds outbounds / 1

/-- `t_out = v_out / cargos`. -/
def t_out (inbounds outbounds : Nat) : ℚ :=
  v_out inbounds outbounds / (cargos inbounds : ℚ)

/-- `I = {f"i{i+1}" for i in range(inbounds)}`. -/
def I (inbounds : Nat) : List Member :=
  (List.range inbounds).map (fun i => ('i', i + 1))

/-- `J = {f"j{j+1}" for j in range(outbounds)}`. -/
def J (outbounds : Nat) : List Member :=
  (List.range outbounds).map (fun j => ('j', j + 1))

/-- `S = {f"s{s+1}" for s in range(splitters)}`. -/
def S (splitters : Nat) : List Member :=
  (List.range splitters).map (fun s => ('s', s + 1))

/-- `C = {f"c{c+1}" for c in range(cargos)}`. -/
def C (inbounds : Nat) : List Member :=
  (List.range (cargos inbounds)).map (fun c => ('c', c + 1))

/-- `P = I | S`. -/
def P (inbounds splitters : Nat) : List Member := I inbounds ++ S splitters

/-- `Q = J | S`. -/
def Q (outbounds splitters : Nat) : List Member := J outbounds ++ S splitters

/-- `B = {(p, q) for p in P for q in Q}` — note: no filtering in
sympy_system.py. -/
def B (inbounds outbounds splitters : Nat) : List (Member × Member) :=
  setProd (P inbounds splitters) (Q outbounds splitters)

/-- `f_init(i, c)`: `t_in` when the numeric suffixes agree, else 0. -/
def f_init (inbounds outbounds : Nat) (i c : Member) : ℚ :=
  if get_int i = get_int c then t_in inbounds outbounds else 0

/-- `f = {(i, c): f_init(i, c) for i, c in IxC}`. -/
def f (inbounds outbounds : Nat) (i c : Member) : ℚ :=
  f_init inbounds outbounds i c

/-- `g = {(j, c): t_out for j, c in JxC}`. -/
def g (inbounds outbounds : Nat) (_j _c : Member) : ℚ :=
  t_out inbounds outbounds

/-- `u_t = sp.Integer(1)`. -/
def u_t : ℚ := 1

/-- `u_x = sp.Integer(2)`. -/
def u_x : ℚ := 2

end SympySystem

namespace PyomoModel

/-- `B_filter` accepts exactly the non-bypass, non-self-loop pairs. -/
theorem B_filter_eq_true (p q : Member) :
    B_filter p q = true ↔
      ¬(get_letter p = 'i' ∧ get_letter q = 'j') ∧
      ¬(get_letter p = 's' ∧ get_letter q = 's' ∧ get_int p = get_int q) := by
  unfold B_filter
  split_ifs with h1 h2
  · simp [h1]
  · simp [h1, h2]
  · simp [h1, h2]

/-- Membership characterization of the pyomo route set `B`. -/
theorem B_mem_iff (inbounds outbounds splitters : Nat) (p q : Member) :
    (p, q) ∈ B inbounds outbounds splitters ↔
      p ∈ P inbounds splitters ∧ q ∈ Q outbounds splitters ∧
      ¬(get_letter p = 'i' ∧ get_letter q = 'j') ∧
      ¬(get_letter p = 's' ∧ get_letter q = 's' ∧ get_int p = get_int q) := by
  simp only [B, List.mem_filter, mem_setProd, B_filter_eq_true, and_assoc]

end PyomoModel

/-- C2 counterexample: in sympy_system.py the route set `B` is the raw
product `P × Q`, so at the file's own configuration (1 inbound, 3 outbound,
3 splitters) it contains the inbound-to-outbound bypass `(i1, j1)` and the
splitter self-loop `(s1, s1)`, contradicting the claimed exclusion rules. -/
theorem sympy_B_contains_bypass_and_self_loop :
    ((('i', 1), ('j', 1)) ∈ SympySystem.B 1 3 3) ∧
    ((('s', 1), ('s', 1)) ∈ SympySystem.B 1 3 3) := by
  decide

/-- C2 (amended): For every positive inbound, outbound, and splitter counts,
the pyomo route set `B` contains a pair `(p, q)` of `P × Q` exactly when it
is neither an inbound-to-outbound bypass nor a splitter self-loop; the
sympy route set `B` is the full unfiltered product `P × Q` (so it does not
satisfy the exclusion rules). -/
theorem route_exclusions_amended (inbounds outbounds splitters : Nat)
    (_h1 : 0 < inbounds) (_h2 : 0 < outbounds) (_h3 : 0 < splitters) :
    (∀ p q : Member, (p, q) ∈ PyomoModel.B inbounds outbounds splitters ↔
      p ∈ PyomoModel.P inbounds splitters ∧ q ∈ PyomoModel.Q outbounds splitters ∧
      ¬(get_letter p = 'i' ∧ get_letter q = 'j') ∧
      ¬(get_letter p = 's' ∧ get_letter q = 's' ∧ get_int p = get_int q)) ∧
    (∀ p q : Member, (p, q) ∈ SympySystem.B inbounds outbounds splitters ↔
      p ∈ SympySystem.P inbounds splitters ∧ q ∈ SympySystem.Q outbounds splitters) := by
  constructor
  · intro p q
    exact PyomoModel.B_mem_iff inbounds outbounds splitters p q
  · intro p q
    exact mem_setProd

/-- Witness for C2 (amended) at counts 1, 1, 1: the route `(i1, s1)` is in
the pyomo route set, and the bypass `(i1, j1)` is not. -/
theorem route_exclusions_amended_witness :
    ((('i', 1), ('s', 1)) ∈ PyomoModel.B 1 1 1) ∧
    ((('i', 1), ('j', 1)) ∉ PyomoModel.B 1 1 1) := by
  have h := (route_exclusions_amended 1 1 1 (by decide) (by decide) (by decide)).1
  constructor
  · exact (h ('i', 1) ('s', 1)).mpr (by decide)
  · intro hmem
    exact absurd ((h ('i', 1) ('j', 1)).mp hmem) (by decide)

namespace PyomoModel

/-! ### Decision variables (pyomo_model_1.py, lines 134-184) and the
feasibility predicate of the generated constraint system.

`n` and `m` are `NonNegativeIntegers` variables, so they are modelled as
integers; all other variables are modelled as rationals. -/

/-- A total assignment of values to every variable family of the model. -/
structure Assign where
  e : Member → Member → ℚ
  t : Member → Member → Member → ℚ
  v : Member → Member → ℚ
  n : Member → Int
  m : Member → Int
  x : Member → Member → ℚ
  y : Member → Member → ℚ
  z : Member → ℚ
  xe : Member → Member → Member → ℚ
  tz : Member → Member → Member → ℚ

/-- Variable domain constraints from the `pyo.Var` declarations: `e` is
`Binary`; `t`, `v`, `tz` are `PercentFraction`; `n`, `m` are
`NonNegativeIntegers`; `x`, `y`, `xe` are `NonNegativeReals`; `z` is
`Binary`. -/
def variable_domains (inbounds outbounds splitters : Nat) (a : Assign) : Prop :=
  (∀ pq ∈ B inbounds outbounds splitters, a.e pq.1 pq.2 = 0 ∨ a.e pq.1 pq.2 = 1) ∧
  (∀ pq ∈ B inbounds outbounds splitters, ∀ c ∈ C inbounds,
    0 ≤ a.t pq.1 pq.2 c ∧ a.t pq.1 pq.2 c ≤ 1) ∧
  (∀ pq ∈ B inbounds outbounds splitters, 0 ≤ a.v pq.1 pq.2 ∧ a.v pq.1 pq.2 ≤ 1) ∧
  (∀ s ∈ S splitters, 0 ≤ a.n s) ∧
  (∀ s ∈ S splitters, 0 ≤ a.m s) ∧
  (∀ s ∈ S splitters, ∀ c ∈ C inbounds, 0 ≤ a.x s c) ∧
  (∀ s ∈ S splitters, ∀ c ∈ C inbounds, 0 ≤ a.y s c) ∧
  (∀ s ∈ S splitters, a.z s = 0 ∨ a.z s = 1) ∧
  (∀ w ∈ W inbounds outbounds splitters, ∀ c ∈ C inbounds, 0 ≤ a.xe w.1 w.2 c) ∧
  (∀ w ∈ W inbounds outbounds splitters, ∀ c ∈ C inbounds,
    0 ≤ a.tz w.1 w.2 c ∧ a.tz w.1 w.2 c ≤ 1)

/-- `define_volume`: `v[p,q] == sum(t[p,q,c] for c in C)`. -/
def define_volume (inbounds outbounds splitters : Nat) (a : Assign) : Prop :=
  ∀ pq ∈ B inbounds outbounds splitters,
    a.v pq.1 pq.2 = sumOver (C inbounds) (fun c => a.t pq.1 pq.2 c)

/-- `define_num_inputs`: `n[s] == sum(e[p,q] for p,q in B if q == s)`. -/
def define_num_inputs (inbounds outbounds splitters : Nat) (a : Assign) : Prop :=
  ∀ s ∈ S splitters,
    (a.n s : ℚ) = sumOverB ((B inbounds outbounds splitters).filter
      (fun pq => pq.2 = s)) (fun pq => a.e pq.1 pq.2)

/-- `define_num_outputs`: `m[s] == sum(e[p,q] for p,q in B if p == s)`. -/
def define_num_outputs (inbounds outbounds splitters : Nat) (a : Assign) : Prop :=
  ∀ s ∈ S splitters,
    (a.m s : ℚ) = sumOverB ((B inbounds outbounds splitters).filter
      (fun pq => pq.1 = s)) (fun pq => a.e pq.1 pq.2)

/-- `define_inflow`: `x[s,c] == sum(t[p,q,c] for p,q in B if q == s)`. -/
def define_inflow (inbounds outbounds splitters : Nat) (a : Assign) : Prop :=
  ∀ s ∈ S splitters, ∀ c ∈ C inbounds,
    a.x s c = sumOverB ((B inbounds outbounds splitters).filter
      (fun pq => pq.2 = s)) (fun pq => a.t pq.1 pq.2 c)

/-- `define_outflow`: `y[s,c] == sum(t[p,q,c] for p,q in B if p == s)`. -/
def define_outflow (inbounds outbounds splitters : Nat) (a : Assign) : Prop :=
  ∀ s ∈ S splitters, ∀ c ∈ C inbounds,
    a.y s c = sumOverB ((B inbounds outbounds splitters).filter
      (fun pq => pq.1 = s)) (fun pq => a.t pq.1 pq.2 c)

/-- The three `force_xe` families over `W × C`. -/
def force_xe (inbounds outbounds splitters : Nat) (a : Assign) : Prop :=
  ∀ w ∈ W inbounds outbounds splitters, ∀ c ∈ C inbounds,
    force_xe_1_rule u_x (a.e w.1 w.2) (a.xe w.1 w.2 c) ∧
    force_xe_2_rule (a.x w.1 c) (a.xe w.1 w.2 c) ∧
    force_xe_3_rule u_x (a.e w.1 w.2) (a.x w.1 c) (a.xe w.1 w.2 c)

/-- The three `force_tz` families over `W × C`. -/
def force_tz (inbounds outbounds splitters : Nat) (a : Assign) : Prop :=
  ∀ w ∈ W inbounds outbounds splitters, ∀ c ∈ C inbounds,
    force_tz_1_rule u_t (a.z w.1) (a.tz w.1 w.2 c) ∧
    force_tz_2_rule (a.t w.1 w.2 c) (a.tz w.1 w.2 c) ∧
    force_tz_3_rule u_t (a.z w.1) (a.t w.1 w.2 c) (a.tz w.1 w.2 c)

/-- `connect_inbounds`: `sum(e[p,q] for p,q in B if p == i) == 1`. -/
def connect_inbounds (inbounds outbounds splitters : Nat) (a : Assign) : Prop :=
  ∀ i ∈ I inbounds,
    sumOverB ((B inbounds outbounds splitters).filter (fun pq => pq.1 = i))
      (fun pq => a.e pq.1 pq.2) = 1

/-- `connect_outbounds`: `sum(e[p,q] for p,q in B if q == j) == 1`. -/
def connect_outbounds (inbounds outbounds splitters : Nat) (a : Assign) : Prop :=
  ∀ j ∈ J outbounds,
    sumOverB ((B inbounds outbounds splitters).filter (fun pq => pq.2 = j))
      (fun pq => a.e pq.1 pq.2) = 1

/-- `consume_inbounds`: `sum(t[p,q,c] for p,q in B if p == i) == f[i,c]`. -/
def consume_inbounds (inbounds outbounds splitters : Nat) (a : Assign) : Prop :=
  ∀ i ∈ I inbounds, ∀ c ∈ C inbounds,
    sumOverB ((B inbounds outbounds splitters).filter (fun pq => pq.1 = i))
      (fun pq => a.t pq.1 pq.2 c) = f inbounds outbounds i c

/-- `produce_outbounds`: `sum(t[p,q,c] for p,q in B if q == j) == g[j,c]`. -/
def produce_outbounds (inbounds outbounds splitters : Nat) (a : Assign) : Prop :=
  ∀ j ∈ J outbounds, ∀ c ∈ C inbounds,
    sumOverB ((B inbounds outbounds splitters).filter (fun pq => pq.2 = j))
      (fun pq => a.t pq.1 pq.2 c) = g inbounds outbounds j c

/-- `respect_capacity`: `v[p,q] <= e[p,q]`. -/
def respect_capacity (inbounds outbounds splitters : Nat) (a : Assign) : Prop :=
  ∀ pq ∈ B inbounds outbounds splitters, a.v pq.1 pq.2 ≤ a.e pq.1 pq.2

/-- `splitters_conserve`: `x[s,c] == y[s,c]`. -/
def splitters_conserve (inbounds _outbounds splitters : Nat) (a : Assign) : Prop :=
  ∀ s ∈ S splitters, ∀ c ∈ C inbounds, a.x s c = a.y s c

/-- `min_inputs`: `n[s] >= z[s]`. -/
def min_inputs (splitters : Nat) (a : Assign) : Prop :=
  ∀ s ∈ S splitters, a.z s ≤ (a.n s : ℚ)

/-- `max_inputs`: `n[s] <= 2`. -/
def max_inputs (splitters : Nat) (a : Assign) : Prop :=
  ∀ s ∈ S splitters, a.n s ≤ 2

/-- `min_outputs`: `m[s] >= 2 * z[s]`. -/
def min_outputs (splitters : Nat) (a : Assign) : Prop :=
  ∀ s ∈ S splitters, 2 * a.z s ≤ (a.m s : ℚ)

/-- `max_outputs`: `m[s] <= 1 + z[s]`. -/
def max_outputs (splitters : Nat) (a : Assign) : Prop :=
  ∀ s ∈ S splitters, (a.m s : ℚ) ≤ 1 + a.z s

/-- `split_evenly`: `xe[s,q,c] == t[s,q,c] + tz[s,q,c]` over `W × C`. -/
def split_evenly (inbounds outbounds splitters : Nat) (a : Assign) : Prop :=
  ∀ w ∈ W inbounds outbounds splitters, ∀ c ∈ C inbounds,
    split_evenly_rule (a.t w.1 w.2 c) (a.xe w.1 w.2 c) (a.tz w.1 w.2 c)

/-- A feasible assignment: all variable domains and all constraint families
of the generated model hold simultaneously. -/
def Feasible (inbounds outbounds splitters : Nat) (a : Assign) : Prop :=
  variable_domains inbounds outbounds splitters a ∧
  define_volume inbounds outbounds splitters a ∧
  define_num_inputs inbounds outbounds splitters a ∧
  define_num_outputs inbounds outbounds splitters a ∧
  define_inflow inbounds outbounds splitters a ∧
  define_outflow inbounds outbounds splitters a ∧
  force_xe inbounds outbounds splitters a ∧
  force_tz inbounds outbounds splitters a ∧
  connect_inbounds inbounds outbounds splitters a ∧
  connect_outbounds inbounds outbounds splitters a ∧
  consume_inbounds inbounds outbounds splitters a ∧
  produce_outbounds inbounds outbounds splitters a ∧
  respect_capacity inbounds outbounds splitters a ∧
  splitters_conserve inbounds outbounds splitters a ∧
  min_inputs splitters a ∧
  max_inputs splitters a ∧
  min_outputs splitters a ∧
  max_outputs splitters a ∧
  split_evenly inbounds outbounds splitters a

/-- `simultaneous_volume`: the objective `sum(v[p,q] for p,q in B)`. -/
def simultaneous_volume (inbounds outbounds splitters : Nat) (a : Assign) : ℚ :=
  sumOverB (B inbounds outbounds splitters) (fun pq => a.v pq.1 pq.2)

end PyomoModel

namespace PyomoModel

/-- Feasibility of a concrete assignment is decidable: every quantifier in
the constraint system ranges over a concrete finite list. -/
instance (inbounds outbounds splitters : Nat) (a : Assign) :
    Decidable (Feasible inbounds outbounds splitters a) := by
  unfold Feasible variable_domains define_volume define_num_inputs
    define_num_outputs define_inflow define_outflow force_xe force_tz
    connect_inbounds connect_outbounds consume_inbounds produce_outbounds
    respect_capacity splitters_conserve min_inputs max_inputs min_outputs
    max_outputs split_evenly force_xe_1_rule force_xe_2_rule force_xe_3_rule
    force_tz_1_rule force_tz_2_rule force_tz_3_rule split_evenly_rule
  infer_instance

end PyomoModel

/-- A hand-built assignment for the configuration with 1 inbound belt,
1 outbound belt and 2 splitters: the balancer routes everything along
`i1 -> s1 -> j1` and leaves splitter `s2` completely idle. -/
def asg112 : PyomoModel.Assign where
  e := fun p q =>
    if (p = ('i', 1) ∧ q = ('s', 1)) ∨ (p = ('s', 1) ∧ q = ('j', 1)) then 1 else 0
  t := fun p q _ =>
    if (p = ('i', 1) ∧ q = ('s', 1)) ∨ (p = ('s', 1) ∧ q = ('j', 1)) then 1 else 0
  v := fun p q =>
    if (p = ('i', 1) ∧ q = ('s', 1)) ∨ (p = ('s', 1) ∧ q = ('j', 1)) then 1 else 0
  n := fun s => if s = ('s', 1) then 1 else 0
  m := fun s => if s = ('s', 1) then 1 else 0
  x := fun s _ => if s = ('s', 1) then 1 else 0
  y := fun s _ => if s = ('s', 1) then 1 else 0
  z := fun _ => 0
  xe := fun p q _ => if p = ('s', 1) ∧ q = ('j', 1) then 1 else 0
  tz := fun _ _ _ => 0



/-- The hand-built assignment satisfies every constraint of the generated
model for counts 1, 1, 2. -/
theorem feasible_asg112 : PyomoModel.Feasible 1 1 2 asg112 := by
  norm_num +decide [PyomoModel.Feasible, PyomoModel.variable_domains, PyomoModel.define_volume,
    PyomoModel.define_num_inputs, PyomoModel.define_num_outputs, PyomoModel.define_inflow,
    PyomoModel.define_outflow, PyomoModel.force_xe, PyomoModel.force_tz,
    PyomoModel.connect_inbounds, PyomoModel.connect_outbounds, PyomoModel.consume_inbounds,
    PyomoModel.produce_outbounds, PyomoModel.respect_capacity, PyomoModel.splitters_conserve,
    PyomoModel.min_inputs, PyomoModel.max_inputs, PyomoModel.min_outputs,
    PyomoModel.max_outputs, PyomoModel.split_evenly, PyomoModel.force_xe_1_rule,
    PyomoModel.force_xe_2_rule, PyomoModel.force_xe_3_rule, PyomoModel.force_tz_1_rule,
    PyomoModel.force_tz_2_rule, PyomoModel.force_tz_3_rule, PyomoModel.split_evenly_rule,
    PyomoModel.B, PyomoModel.W, PyomoModel.P, PyomoModel.Q, PyomoModel.I, PyomoModel.J,
    PyomoModel.S, PyomoModel.C, PyomoModel.B_filter, PyomoModel.f, PyomoModel.g,
    PyomoModel.u_t, PyomoModel.u_x, PyomoModel.t_in, PyomoModel.t_out, PyomoModel.v_in,
    PyomoModel.v_out, PyomoModel.throughput, PyomoModel.cargos,
    init_set, setProd, sumOver, sumOverB, get_letter, get_int, asg112, List.range_succ,
    List.filter_cons, List.filter_nil]

/-- C3 counterexample: the hand-built feasible assignment for counts 1, 1, 2
leaves splitter `s2` idle, so a feasible assignment can have `n[s] = 0`
(violating the claimed `1 <= n[s]`) and `m[s] = 0` with `z[s] = 0`
(violating the claimed `m[s] = 1` when `z[s] = 0`). -/
theorem idle_splitter_counterexample :
    PyomoModel.Feasible 1 1 2 asg112 ∧ ('s', 2) ∈ PyomoModel.S 2 ∧
    asg112.n ('s', 2) = 0 ∧ asg112.m ('s', 2) = 0 ∧ asg112.z ('s', 2) = 0 :=
  ⟨feasible_asg112, by decide, by decide, by decide, by norm_num [asg112]⟩

/-- C3 (amended): In every feasible assignment of the generated constraint
system, every splitter `s` satisfies `z[s] ≤ n[s] ≤ 2` and
`2·z[s] ≤ m[s] ≤ 1 + z[s]`; in particular `m[s] = 2` when `z[s] = 1` and
`m[s] ≤ 1` when `z[s] = 0`. -/
theorem degree_bounds_amended (inbounds outbounds splitters : Nat)
    (a : PyomoModel.Assign) (hf : PyomoModel.Feasible inbounds outbounds splitters a) :
    ∀ s ∈ PyomoModel.S splitters,
      (a.z s = 0 ∨ a.z s = 1) ∧
      a.z s ≤ (a.n s : ℚ) ∧ a.n s ≤ 2 ∧
      2 * a.z s ≤ (a.m s : ℚ) ∧ (a.m s : ℚ) ≤ 1 + a.z s ∧
      (a.z s = 1 → a.m s = 2) ∧
      (a.z s = 0 → a.m s ≤ 1) := by
  obtain ⟨hdom, -, -, -, -, -, -, -, -, -, -, -, -, -, hmin_in, hmax_in,
    hmin_out, hmax_out, -⟩ := hf
  obtain ⟨-, -, -, -, -, -, -, hdz, -, -⟩ := hdom
  intro s hs
  have hz := hdz s hs
  have h1 := hmin_in s hs
  have h2 := hmax_in s hs
  have h3 := hmin_out s hs
  have h4 := hmax_out s hs
  refine ⟨hz, h1, h2, h3, h4, ?_, ?_⟩
  · intro hz1
    rw [hz1] at h3 h4
    have hup : (a.m s : ℚ) ≤ 2 := by linarith
    have hlo : (2 : ℚ) ≤ (a.m s : ℚ) := by linarith
    have : (a.m s : ℚ) = 2 := le_antisymm hup hlo
    exact_mod_cast this
  · intro hz0
    rw [hz0] at h4
    have : (a.m s : ℚ) ≤ 1 := by linarith
    exact_mod_cast this

/-- Witness for C3 (amended) at the hand-built feasible assignment,
splitter `s1`. -/
theorem degree_bounds_amended_witness :
    (asg112.z ('s', 1) = 0 ∨ asg112.z ('s', 1) = 1) ∧
    asg112.z ('s', 1) ≤ (asg112.n ('s', 1) : ℚ) ∧ asg112.n ('s', 1) ≤ 2 ∧
    2 * asg112.z ('s', 1) ≤ (asg112.m ('s', 1) : ℚ) ∧
    (asg112.m ('s', 1) : ℚ) ≤ 1 + asg112.z ('s', 1) ∧
    (asg112.z ('s', 1) = 1 → asg112.m ('s', 1) = 2) ∧
    (asg112.z ('s', 1) = 0 → asg112.m ('s', 1) ≤ 1) :=
  degree_bounds_amended 1 1 2 asg112 feasible_asg112 ('s', 1) (by decide)

/-- C5 counterexample: for 1 inbound belt, 1 outbound belt and 0 splitters
the generated route set is empty — in particular it does not contain the
claimed single route `(i1, j1)`, because `B_filter` excludes every
inbound-to-outbound bypass. -/
theorem scenarioA_route_set_empty :
    PyomoModel.B 1 1 0 = [] ∧ ((('i', 1), ('j', 1)) ∉ PyomoModel.B 1 1 0) := by
  decide

/-- C5 (amended): for the configuration with 1 inbound belt, 1 outbound
belt, and 0 splitters, the generated model contains no routes at all and
admits no feasible assignment (the `connect_inbounds` constraint demands an
empty sum equal 1), so there is no optimal assignment with objective 1. -/
theorem scenarioA_amended :
    PyomoModel.B 1 1 0 = [] ∧ ¬∃ a, PyomoModel.Feasible 1 1 0 a := by
  have hB : PyomoModel.B 1 1 0 = [] := by decide
  refine ⟨hB, ?_⟩
  rintro ⟨a, hf⟩
  obtain ⟨-, -, -, -, -, -, -, -, hci, -, -, -, -, -, -, -, -, -, -⟩ := hf
  have h := hci ('i', 1) (by decide)
  rw [hB] at h
  simp [sumOverB] at h

/-- Pointwise comparison of two `sumOverB` sums. -/
theorem sumOverB_le_sumOverB {l : List (Member × Member)}
    {f g : Member × Member → ℚ} (h : ∀ pq ∈ l, f pq ≤ g pq) :
    sumOverB l f ≤ sumOverB l g :=
  List.sum_le_sum h

/-- A single nonnegative summand is at most the whole `sumOver` sum. -/
theorem le_sumOver_of_mem {l : List Member} {f : Member → ℚ}
    (h0 : ∀ m ∈ l, 0 ≤ f m) {c : Member} (hc : c ∈ l) :
    f c ≤ sumOver l f := by
  refine List.single_le_sum ?_ (f c) (List.mem_map_of_mem f hc)
  intro x hx
  obtain ⟨m, hm, rfl⟩ := List.mem_map.mp hx
  exact h0 m hm

/-- C8: The default big-M constants are valid upper bounds: in every
feasible assignment, `t[p,q,c] ≤ 1 = u_t` for every route and cargo (from
the variable domain), and `x[s,c] ≤ 2 = u_x` for every splitter and cargo
(from the at-most-two-inputs bound together with the per-route capacity
constraints). -/
theorem bigM_bounds_valid (inbounds outbounds splitters : Nat)
    (a : PyomoModel.Assign) (hf : PyomoModel.Feasible inbounds outbounds splitters a) :
    (PyomoModel.u_t = 1 ∧ PyomoModel.u_x = 2) ∧
    (∀ pq ∈ PyomoModel.B inbounds outbounds splitters, ∀ c ∈ PyomoModel.C inbounds,
      a.t pq.1 pq.2 c ≤ PyomoModel.u_t) ∧
    (∀ s ∈ PyomoModel.S splitters, ∀ c ∈ PyomoModel.C inbounds,
      a.x s c ≤ PyomoModel.u_x) := by
  obtain ⟨hdom, hvol, hni, -, hinf, -, -, -, -, -, -, -, hcap, -, -, hmax_in, -, -, -⟩ := hf
  obtain ⟨hde, hdt, -, -, -, -, -, -, -, -⟩ := hdom
  refine ⟨⟨rfl, rfl⟩, ?_, ?_⟩
  · intro pq hpq c hc
    exact le_of_le_of_eq (hdt pq hpq c hc).2 rfl
  · intro s hs c hc
    rw [hinf s hs c hc]
    have hstep : sumOverB ((PyomoModel.B inbounds outbounds splitters).filter
        (fun pq => pq.2 = s)) (fun pq => a.t pq.1 pq.2 c) ≤
      sumOverB ((PyomoModel.B inbounds outbounds splitters).filter
        (fun pq => pq.2 = s)) (fun pq => a.e pq.1 pq.2) := by
      apply sumOverB_le_sumOverB
      intro pq hpq
      have hpqB : pq ∈ PyomoModel.B inbounds outbounds splitters :=
        (List.mem_filter.mp hpq).1
      have htv : a.t pq.1 pq.2 c ≤ a.v pq.1 pq.2 := by
        rw [hvol pq hpqB]
        exact le_sumOver_of_mem (fun m hm => (hdt pq hpqB m hm).1) hc
      exact le_trans htv (hcap pq hpqB)
    refine le_trans hstep ?_
    rw [← hni s hs]
    have h2 : a.n s ≤ 2 := hmax_in s hs
    show (a.n s : ℚ) ≤ PyomoModel.u_x
    rw [show PyomoModel.u_x = ((2 : Int) : ℚ) by norm_num [PyomoModel.u_x]]
    exact_mod_cast h2

/-- Witness for C8 at the hand-built feasible assignment for counts 1, 1, 2. -/
theorem bigM_bounds_valid_witness :
    asg112.x ('s', 1) ('c', 1) ≤ PyomoModel.u_x :=
  (bigM_bounds_valid 1 1 2 asg112 feasible_asg112).2.2 ('s', 1) (by decide) ('c', 1) (by decide)

/-- Summing an indicator of `x + 1 = k` over `List.range n`. -/
theorem sum_range_indicator (n k : Nat) (val : ℚ) :
    (((List.range n).map (fun x => if x + 1 = k then val else 0)).sum) =
      if 1 ≤ k ∧ k ≤ n then val else 0 := by
  induction n with
  | zero =>
    rw [if_neg (by omega)]
    simp
  | succ n ih =>
    rw [List.range_succ, List.map_append, List.sum_append, ih]
    simp only [List.map_cons, List.map_nil, List.sum_cons, List.sum_nil]
    by_cases hk : n + 1 = k
    · rw [if_neg (by omega), if_pos hk, if_pos (by omega)]
      ring
    · rw [if_neg hk]
      by_cases hk2 : 1 ≤ k ∧ k ≤ n
      · rw [if_pos hk2, if_pos (by omega)]
        ring
      · rw [if_neg hk2, if_neg (by omega)]
        ring

/-- Summing a constant over `List.range n`. -/
theorem sum_range_const (n : Nat) (val : ℚ) :
    (((List.range n).map (fun _ => val)).sum) = (n : ℚ) * val := by
  induction n with
  | zero => simp
  | succ n ih =>
    rw [List.range_succ, List.map_append, List.sum_append, ih]
    simp only [List.map_cons, List.map_nil, List.sum_cons, List.sum_nil]
    push_cast
    ring

namespace PyomoModel

/-- `t_in` lies in `[0, 1]` whenever the inbound count is positive. -/
theorem t_in_bounds (inbounds outbounds : Nat) (h1 : 0 < inbounds) :
    0 ≤ t_in inbounds outbounds ∧ t_in inbounds outbounds ≤ 1 := by
  unfold t_in v_in throughput
  constructor
  · positivity
  · rw [div_one, div_le_one (by exact_mod_cast h1)]
    exact_mod_cast Nat.min_le_left inbounds outbounds

/-- `t_out` lies in `[0, 1]` whenever both counts are positive. -/
theorem t_out_bounds (inbounds outbounds : Nat) (h1 : 0 < inbounds)
    (h2 : 0 < outbounds) :
    0 ≤ t_out inbounds outbounds ∧ t_out inbounds outbounds ≤ 1 := by
  unfold t_out v_out throughput cargos
  constructor
  · positivity
  · rw [div_le_one (by exact_mod_cast h1)]
    have ha : ((min inbounds outbounds : Nat) : ℚ) / (outbounds : ℚ) ≤ 1 := by
      rw [div_le_one (by exact_mod_cast h2)]
      exact_mod_cast Nat.min_le_right inbounds outbounds
    have hb : (1 : ℚ) ≤ (inbounds : ℚ) := by exact_mod_cast h1
    linarith

end PyomoModel

/-- C7: For positive counts, the traffic parameters are computed as
`throughput = min(|I|, |J|)`, `f[i,c] = throughput/|I|` exactly when the
ordinal index of `i` equals that of `c` and 0 otherwise,
`g[j,c] = (throughput/|J|)/|C|` uniformly, and every `f[i,c]` and `g[j,c]`
lies in `[0, 1]`. -/
theorem traffic_parameters_formula (inbounds outbounds : Nat)
    (h1 : 0 < inbounds) (h2 : 0 < outbounds) :
    (PyomoModel.throughput inbounds outbounds = min inbounds outbounds) ∧
    (∀ i ∈ PyomoModel.I inbounds, ∀ c ∈ PyomoModel.C inbounds,
      (get_int i = get_int c →
        PyomoModel.f inbounds outbounds i c =
          (PyomoModel.throughput inbounds outbounds : ℚ) / (inbounds : ℚ)) ∧
      (get_int i ≠ get_int c → PyomoModel.f inbounds outbounds i c = 0) ∧
      0 ≤ PyomoModel.f inbounds outbounds i c ∧
      PyomoModel.f inbounds outbounds i c ≤ 1) ∧
    (∀ j ∈ PyomoModel.J outbounds, ∀ c ∈ PyomoModel.C inbounds,
      PyomoModel.g inbounds outbounds j c =
        ((PyomoModel.throughput inbounds outbounds : ℚ) / (outbounds : ℚ)) /
          (PyomoModel.cargos inbounds : ℚ) ∧
      0 ≤ PyomoModel.g inbounds outbounds j c ∧
      PyomoModel.g inbounds outbounds j c ≤ 1) := by
  have hin := PyomoModel.t_in_bounds inbounds outbounds h1
  have hout := PyomoModel.t_out_bounds inbounds outbounds h1 h2
  refine ⟨rfl, ?_, ?_⟩
  · intro i hi c hc
    refine ⟨?_, ?_, ?_, ?_⟩
    · intro heq
      rw [PyomoModel.f, if_pos heq]
      unfold PyomoModel.t_in PyomoModel.v_in
      rw [div_one]
    · intro hne
      rw [PyomoModel.f, if_neg hne]
    · rw [PyomoModel.f]
      split
      · exact hin.1
      · exact le_refl 0
    · rw [PyomoModel.f]
      split
      · exact hin.2
      · exact zero_le_one
  · intro j hj c hc
    refine ⟨rfl, hout.1, hout.2⟩

/-- Witness for C7 at counts 2, 3. -/
theorem traffic_parameters_formula_witness :
    PyomoModel.f 2 3 ('i', 1) ('c', 1) =
      (PyomoModel.throughput 2 3 : ℚ) / ((2 : Nat) : ℚ) :=
  ((traffic_parameters_formula 2 3 (by decide) (by decide)).2.1
    ('i', 1) (by decide) ('c', 1) (by decide)).1 rfl

/-- Error taxonomy of the specification.  Modelled from the spec: neither
source file defines a `ConfigurationError`; the spec requires one for
invalid or infeasible-by-construction configuration input. -/
inductive ConfigurationError where
  | nonPositiveCount : ConfigurationError
  | flowImbalance : ConfigurationError
deriving DecidableEq

/-- Modelled from the spec: the generation-time flow-conservation check
("total inbound supply per cargo equals total outbound demand for that
cargo, else `ConfigurationError`"), absent from src, applied to arbitrary
traffic parameter families over the generated index sets. -/
def checkFlowConservation (inbounds outbounds : Nat)
    (fp gp : Member → Member → ℚ) : Except ConfigurationError Unit :=
  if ∀ c ∈ PyomoModel.C inbounds,
      sumOver (PyomoModel.I inbounds) (fun i => fp i c) =
        sumOver (PyomoModel.J outbounds) (fun j => gp j c) then
    Except.ok ()
  else
    Except.error ConfigurationError.flowImbalance

namespace PyomoModel

/-- The total inbound supply of cargo `c` is `t_in`: exactly one inbound
belt matches each cargo's ordinal index. -/
theorem sum_f_eq (inbounds outbounds : Nat) {c : Member} (hc : c ∈ C inbounds) :
    sumOver (I inbounds) (fun i => f inbounds outbounds i c) =
      t_in inbounds outbounds := by
  obtain ⟨x, hx, rfl⟩ := List.mem_map.mp hc
  have hx2 : x < inbounds := by simpa [cargos] using List.mem_range.mp hx
  unfold sumOver I init_set f get_int
  rw [List.map_map]
  show (List.map (fun a => if a + 1 = x + 1 then t_in inbounds outbounds else 0)
    (List.range inbounds)).sum = t_in inbounds outbounds
  rw [sum_range_indicator inbounds (x + 1) (t_in inbounds outbounds)]
  rw [if_pos ⟨by omega, by omega⟩]

/-- The total outbound demand of any cargo is `outbounds * t_out`. -/
theorem sum_g_eq (inbounds outbounds : Nat) (c : Member) :
    sumOver (J outbounds) (fun j => g inbounds outbounds j c) =
      (outbounds : ℚ) * t_out inbounds outbounds := by
  unfold sumOver J init_set g
  rw [List.map_map]
  show (List.map (fun _ => t_out inbounds outbounds) (List.range outbounds)).sum =
    (outbounds : ℚ) * t_out inbounds outbounds
  exact sum_range_const outbounds _

/-- For positive counts, per-cargo inbound supply equals outbound demand. -/
theorem supply_eq_demand (inbounds outbounds : Nat)
    (h1 : 0 < inbounds) (h2 : 0 < outbounds) :
    (outbounds : ℚ) * t_out inbounds outbounds = t_in inbounds outbounds := by
  unfold t_in t_out v_in v_out cargos
  have hi : (inbounds : ℚ) ≠ 0 := Nat.cast_ne_zero.mpr h1.ne'
  have ho : (outbounds : ℚ) ≠ 0 := Nat.cast_ne_zero.mpr h2.ne'
  field_simp
  ring

end PyomoModel

/-- C4: At generation time, for every cargo `c`, total inbound supply
equals total outbound demand; the (spec-modelled) conservation check
accepts the generated parameters, and it reports a `ConfigurationError`
exactly when the equality fails for some cargo. -/
theorem flow_conservation_and_check (inbounds outbounds : Nat)
    (h1 : 0 < inbounds) (h2 : 0 < outbounds) :
    (∀ c ∈ PyomoModel.C inbounds,
      sumOver (PyomoModel.I inbounds) (fun i => PyomoModel.f inbounds outbounds i c) =
        sumOver (PyomoModel.J outbounds) (fun j => PyomoModel.g inbounds outbounds j c)) ∧
    checkFlowConservation inbounds outbounds (PyomoModel.f inbounds outbounds)
      (PyomoModel.g inbounds outbounds) = Except.ok () ∧
    (∀ fp gp : Member → Member → ℚ,
      checkFlowConservation inbounds outbounds fp gp =
          Except.error ConfigurationError.flowImbalance ↔
        ¬∀ c ∈ PyomoModel.C inbounds,
            sumOver (PyomoModel.I inbounds) (fun i => fp i c) =
              sumOver (PyomoModel.J outbounds) (fun j => gp j c)) := by
  have hcons : ∀ c ∈ PyomoModel.C inbounds,
      sumOver (PyomoModel.I inbounds) (fun i => PyomoModel.f inbounds outbounds i c) =
        sumOver (PyomoModel.J outbounds) (fun j => PyomoModel.g inbounds outbounds j c) := by
    intro c hc
    rw [PyomoModel.sum_f_eq inbounds outbounds hc, PyomoModel.sum_g_eq inbounds outbounds c]
    exact (PyomoModel.supply_eq_demand inbounds outbounds h1 h2).symm
  refine ⟨hcons, ?_, ?_⟩
  · rw [checkFlowConservation, if_pos hcons]
  · intro fp gp
    rw [checkFlowConservation]
    split_ifs with h
    · exact iff_of_false (by simp) (not_not_intro h)
    · exact iff_of_true rfl h

/-- Witness for C4 at counts 1, 2: the generated parameters pass the
conservation check. -/
theorem flow_conservation_and_check_witness :
    checkFlowConservation 1 2 (PyomoModel.f 1 2) (PyomoModel.g 1 2) = Except.ok () :=
  (flow_conservation_and_check 1 2 (by decide) (by decide)).2.1

/-- Modelled from the spec: index-space generation with the required
validation of the three scalar configuration counts, absent from src
(both source files hard-code their counts and perform no validation). -/
def generateIndexSets (inbounds outbounds splitters : Int) :
    Except ConfigurationError (List Member × List Member × List Member × List Member) :=
  if inbounds ≤ 0 ∨ outbounds ≤ 0 ∨ splitters ≤ 0 then
    Except.error ConfigurationError.nonPositiveCount
  else
    Except.ok (PyomoModel.I inbounds.toNat, PyomoModel.J outbounds.toNat,
      PyomoModel.S splitters.toNat, PyomoModel.C inbounds.toNat)

/-- C6: Index-space generation fails with a `ConfigurationError` exactly
when one of the three configuration counts is non-positive, and succeeds
(producing the index sets) exactly when all three are positive. -/
theorem index_generation_error_iff (inbounds outbounds splitters : Int) :
    (generateIndexSets inbounds outbounds splitters =
        Except.error ConfigurationError.nonPositiveCount ↔
      inbounds ≤ 0 ∨ outbounds ≤ 0 ∨ splitters ≤ 0) ∧
    (generateIndexSets inbounds outbounds splitters =
        Except.ok (PyomoModel.I inbounds.toNat, PyomoModel.J outbounds.toNat,
          PyomoModel.S splitters.toNat, PyomoModel.C inbounds.toNat) ↔
      0 < inbounds ∧ 0 < outbounds ∧ 0 < splitters) := by
  unfold generateIndexSets
  split_ifs with h
  · exact ⟨iff_of_true rfl h, iff_of_false (by simp) (by omega)⟩
  · exact ⟨iff_of_false (by simp) h, iff_of_true rfl (by omega)⟩

/-- Modelled from the spec: the error reported when result extraction is
attempted without a valid solver assignment, absent from src. -/
inductive SolutionDecodeError where
  | noAssignment : SolutionDecodeError
deriving DecidableEq

/-- The result extractor.  The `e > 0.5` filter and the
(producer, consumer, volume) report are from pyomo_model_1.py lines
410-416; the handling of a missing assignment is modelled from the spec
(`SolutionDecodeError`; the source would instead crash on `pyo.value` of an
unvalued variable).  The optional assignment carries the resolved `e` and
`v` variable values. -/
def extractSolution (routes : List (Member × Member))
    (sol : Option ((Member → Member → ℚ) × (Member → Member → ℚ))) :
    Except SolutionDecodeError (List (Member × Member × ℚ)) :=
  match sol with
  | none => Except.error SolutionDecodeError.noAssignment
  | some ev =>
    Except.ok ((routes.filter (fun pq => decide ((1 : ℚ) / 2 < ev.1 pq.1 pq.2))).map
      (fun pq => (pq.1, pq.2, ev.2 pq.1 pq.2)))

/-- C9: The result extractor fails with `SolutionDecodeError` when no
assignment is available, and otherwise reports exactly the routes whose
existence value exceeds 0.5, each as a (producer, consumer, volume) triple
carrying its resolved volume. -/
theorem extract_solution_spec :
    (∀ routes : List (Member × Member),
      extractSolution routes none = Except.error SolutionDecodeError.noAssignment) ∧
    (∀ (routes : List (Member × Member))
        (ev : (Member → Member → ℚ) × (Member → Member → ℚ)) (p q : Member) (w : ℚ),
      (∃ out, extractSolution routes (some ev) = Except.ok out ∧ (p, q, w) ∈ out) ↔
        ((p, q) ∈ routes ∧ (1 : ℚ) / 2 < ev.1 p q ∧ w = ev.2 p q)) := by
  constructor
  · intro routes
    rfl
  · intro routes ev p q w
    constructor
    · rintro ⟨out, hout, hmem⟩
      rw [extractSolution] at hout
      injection hout with h
      subst h
      obtain ⟨pq, hpq, heq⟩ := List.mem_map.mp hmem
      obtain ⟨hmem2, hgt⟩ := List.mem_filter.mp hpq
      cases pq with
      | mk a b =>
        cases heq
        exact ⟨hmem2, by simpa using hgt, rfl⟩
    · rintro ⟨hmem, hgt, rfl⟩
      refine ⟨_, rfl, ?_⟩
      refine List.mem_map.mpr ⟨(p, q), ?_, rfl⟩
      exact List.mem_filter.mpr ⟨hmem, by simpa using hgt⟩

namespace SympySystem

/-- `t_in` lies in `[0, 1]` whenever the inbound count is positive. -/
theorem sympy_t_in_bounds (inbounds outbounds : Nat) (h1 : 0 < inbounds) :
    0 ≤ t_in inbounds outbounds ∧ t_in inbounds outbounds ≤ 1 := by
  unfold t_in v_in throughput
  constructor
  · positivity
  · rw [div_one, div_le_one (by exact_mod_cast h1)]
    exact_mod_cast Nat.min_le_left inbounds outbounds

/-- `t_out` lies in `[0, 1]` whenever both counts are positive. -/
theorem sympy_t_out_bounds (inbounds outbounds : Nat) (h1 : 0 < inbounds)
    (h2 : 0 < outbounds) :
    0 ≤ t_out inbounds outbounds ∧ t_out inbounds outbounds ≤ 1 := by
  unfold t_out v_out throughput cargos
  constructor
  · positivity
  · rw [div_le_one (by exact_mod_cast h1)]
    have ha : ((min inbounds outbounds : Nat) : ℚ) / (outbounds : ℚ) ≤ 1 := by
      rw [div_le_one (by exact_mod_cast h2)]
      exact_mod_cast Nat.min_le_right inbounds outbounds
    have hb : (1 : ℚ) ≤ (inbounds : ℚ) := by exact_mod_cast h1
    linarith

end SympySystem

/-- C10: In the symbolic formulation, for every positive configuration
counts, every generated `f[i,c]` and `g[j,c]` lies in `[0, 1]` and the
bounds `u_t`, `u_x` are positive, so every assert executed during
parameter construction succeeds. -/
theorem sympy_asserts_succeed (inbounds outbounds splitters : Nat)
    (h1 : 0 < inbounds) (h2 : 0 < outbounds) (_h3 : 0 < splitters) :
    (∀ i ∈ SympySystem.I inbounds, ∀ c ∈ SympySystem.C inbounds,
      0 ≤ SympySystem.f inbounds outbounds i c ∧
      SympySystem.f inbounds outbounds i c ≤ 1) ∧
    (∀ j ∈ SympySystem.J outbounds, ∀ c ∈ SympySystem.C inbounds,
      0 ≤ SympySystem.g inbounds outbounds j c ∧
      SympySystem.g inbounds outbounds j c ≤ 1) ∧
    0 < SympySystem.u_t ∧ 0 < SympySystem.u_x := by
  have hin := SympySystem.sympy_t_in_bounds inbounds outbounds h1
  have hout := SympySystem.sympy_t_out_bounds inbounds outbounds h1 h2
  refine ⟨?_, ?_, by norm_num [SympySystem.u_t], by norm_num [SympySystem.u_x]⟩
  · intro i hi c hc
    rw [SympySystem.f, SympySystem.f_init]
    split
    · exact hin
    · exact ⟨le_refl 0, zero_le_one⟩
  · intro j hj c hc
    exact hout

/-- Witness for C10 at the configuration hard-coded in sympy_system.py
(1 inbound, 3 outbound, 3 splitters). -/
theorem sympy_asserts_succeed_witness :
    0 ≤ SympySystem.f 1 3 ('i', 1) ('c', 1) ∧ SympySystem.f 1 3 ('i', 1) ('c', 1) ≤ 1 :=
  (sympy_asserts_succeed 1 3 3 (by decide) (by decide) (by decide)).1
    ('i', 1) (by decide) ('c', 1) (by decide)
